import Mathlib

/-!
A verification development for a small grade-management system consisting of
two modules: a query module (`consultaNotas`) that loads grade rows, computes
per-subject averages and flags subjects needing recovery, and an entry module
(`lancamentoNotas`) that validates a release window and plans batch
appends/updates of grades.

Grade values are modelled as rationals (`ℚ`): every grade string that the
normalizer produces denotes an exact decimal, so `ℚ` represents the values
the Python floats denote at the precision the program uses (two decimals).
Strings are modelled at the character-list level with ASCII semantics for
digit classification, whitespace stripping and upper-casing, matching the
ASCII inputs the system processes.
-/

/-- ASCII digit character for `d < 10`: `'0'`..`'9'`. -/
def digitChar (d : Nat) : Char := Char.ofNat (48 + d)

/-- Value of a most-significant-first digit string, as in `float`/`int`
parsing: fold multiplying by 10 and adding the digit value. -/
def digitsToNat (l : List Char) : Nat :=
  l.foldl (fun acc c => 10 * acc + (c.toNat - 48)) 0

/-- Fuel-indexed decimal rendering of a natural number (most significant
digit first); `fuel` bounds the recursion depth. -/
def natReprAux : Nat → Nat → List Char
  | 0, _ => []
  | fuel + 1, n => if n = 0 then [] else natReprAux fuel (n / 10) ++ [digitChar (n % 10)]

/-- Decimal rendering of a natural number, as Python prints integers
(`0` renders as `"0"`). -/
def natRepr (n : Nat) : List Char :=
  if n = 0 then ['0'] else natReprAux (n + 1) n

/-- `str.strip()`: drop whitespace from both ends. -/
def trimChars (l : List Char) : List Char :=
  ((l.dropWhile Char.isWhitespace).reverse.dropWhile Char.isWhitespace).reverse

/-- `str.replace(a, b)` for single characters. -/
def replaceChar (a b : Char) (l : List Char) : List Char :=
  l.map (fun c => if c = a then b else c)

/-- `str.split(sep)` for a one-character separator: always returns at least
one (possibly empty) piece, e.g. `"" ↦ [""]`, `"x/y" ↦ ["x","y"]`. -/
def splitOnChar (sep : Char) : List Char → List (List Char)
  | [] => [[]]
  | c :: cs =>
    match splitOnChar sep cs with
    | [] => [[]]
    | p :: ps => if c = sep then [] :: p :: ps else (c :: p) :: ps

/-- The regex test `re.match(r^\d\x7b1,2\x7d/\d\x7b1,2\x7d$, value)` from
`clean_nota_value`: the whole string is one or two digits, a slash, and one
or two digits. -/
def matchesDateFrac (l : List Char) : Bool :=
  match splitOnChar '/' l with
  | [a, b] =>
    decide (a ≠ []) && decide (a.length ≤ 2) && a.all Char.isDigit &&
    decide (b ≠ []) && decide (b.length ≤ 2) && b.all Char.isDigit
  | _ => false

/-- The slash-to-decimal rewrite from `clean_nota_value`:
`parts = value.split(/); value = parts[0] + . + parts[1]`. -/
def slashToDot (l : List Char) : List Char :=
  match splitOnChar '/' l with
  | a :: b :: _ => a ++ '.' :: b
  | _ => l

/-- The multiple-dot collapse from `clean_nota_value`: if splitting on `'.'`
yields more than two parts, keep the first part, one dot, and the
concatenation of the remaining parts. -/
def collapseDots (l : List Char) : List Char :=
  match splitOnChar '.' l with
  | p0 :: p1 :: p2 :: rest => p0 ++ '.' :: (p1 :: p2 :: rest).flatten
  | _ => l

/-- Python `float(s)` restricted to the alphabet `clean_nota_value` can
produce (digits and periods): `none` models a raised `ValueError` (e.g. on
`"."`, which has no digit). `"5."` and `".5"` parse as in Python. The
result is the exact decimal value the string denotes; the rounding of this
value to an IEEE-754 double — in particular the overflow to infinity for
values at or beyond `2^1024 - 2^970`, e.g. on 309-plus-digit strings — is
modelled separately by `pyFloatOfRat`/`clean_nota_value_ieee`. -/
def floatOfCleaned (l : List Char) : Option ℚ :=
  match splitOnChar '.' l with
  | [ip] =>
    if ip ≠ [] ∧ ip.all Char.isDigit then some (digitsToNat ip) else none
  | [ip, fp] =>
    if (ip ++ fp) ≠ [] ∧ ip.all Char.isDigit ∧ fp.all Char.isDigit then
      some ((digitsToNat ip : ℚ) + (digitsToNat fp : ℚ) / 10 ^ fp.length)
    else none
  | _ => none

/-- The character-level pipeline shared verbatim by the two copies of
`clean_nota_value` (`consultaNotas.py` lines 20-31 and `lancamentoNotas.py`
lines 38-49): strip, comma→period, the 1-2/1-2-digit slash rewrite,
strip non-digit/non-period characters, collapse extra periods. -/
def clean_nota_chars (l : List Char) : List Char :=
  let v1 := replaceChar ',' '.' (trimChars l)
  let v2 := if matchesDateFrac v1 then slashToDot v1 else v1
  let v3 := v2.filter (fun c => c.isDigit || c = '.')
  collapseDots v3

/-- `clean_nota_value` from `consultaNotas.py` (the query side, returning a
float). `none` input models a missing/NaN cell (`pd.isna`); a `none` result
models `float(...)` raising `ValueError`. -/
def clean_nota_value (value : Option String) : Option ℚ :=
  match value with
  | none => some 0
  | some s =>
    let v := clean_nota_chars s.toList
    if v = [] then some 0 else floatOfCleaned v

/-- `clean_nota_value` from `lancamentoNotas.py` (the entry side, returning
a string; same pipeline, but missing/empty cases give the string `"0.0"`). -/
def clean_nota_value_lanc (value : Option String) : String :=
  match value with
  | none => "0.0"
  | some s =>
    let v := clean_nota_chars s.toList
    if v = [] then "0.0" else String.mk v

/-- `pd.to_numeric(..., errors=coerce).fillna(0.0)` from `load_data` in
`lancamentoNotas.py` (lines 67-68), restricted to the digit/period alphabet
that `clean_nota_value_lanc` outputs: unparsable values coerce to NaN and
are then filled with 0.0. -/
def to_numeric_coerce_fillna (s : String) : ℚ :=
  match floatOfCleaned s.toList with
  | some q => q
  | none => 0

/-- An IEEE-754 double as `float()` returns it for a nonnegative decimal
string: a finite value or positive infinity. -/
inductive PyFloat where
  | finite (q : ℚ)
  | inf
deriving DecidableEq

/-- The rounding of an exact nonnegative decimal value to a double, with
overflow made explicit: CPython's `float()` (strtod, round to nearest)
returns infinity exactly when the value is at or beyond
`2^1024 - 2^970` — the midpoint between the largest finite double
`2^1024 - 2^971` and `2^1024` — and a finite double below it. -/
def pyFloatOfRat (q : ℚ) : PyFloat :=
  if q < 2 ^ 1024 - 2 ^ 970 then PyFloat.finite q else PyFloat.inf

/-- The query-side `clean_nota_value` with the float overflow made
explicit: when the normalizer returns, the value Python actually produces
is its exact decimal result rounded to a double (finite, or infinity on
overflow). -/
def clean_nota_value_ieee (value : Option String) : Option PyFloat :=
  (clean_nota_value value).map pyFloatOfRat

/-- Round to the nearest integer, ties to the even integer — the rounding
used when Python formats a float with two decimals (`f"{x:.2f}"`). -/
def roundHalfEven (q : ℚ) : ℤ :=
  let f := ⌊q⌋
  if q - f < 1 / 2 then f
  else if 1 / 2 < q - f then f + 1
  else if f % 2 = 0 then f else f + 1

/-- Two zero-padded decimal digits of `k < 100`, the fractional part of a
`.2f` rendering. -/
def pad2 (k : Nat) : List Char := [digitChar (k / 10), digitChar (k % 10)]

/-- Python `f"\x7bq:.2f\x7d"` for the nonnegative grade values the system
formats: round `100*q` half-to-even, then print integer part, a period, and
two fractional digits. -/
def format2 (q : ℚ) : String :=
  let n := (roundHalfEven (100 * q)).toNat
  String.mk (natRepr (n / 100) ++ '.' :: pad2 (n % 100))

/-- One row of the grade table as the query flow sees it after `load_data`:
the text columns are already trimmed and upper-cased and `Nota` is already
normalized to a number. Only the columns `calculate_media` reads are kept. -/
structure Row where
  componente : String
  tipo : String
  nota : ℚ
deriving DecidableEq

/-- Helper for `uniqueList`: keep the values not yet seen, in order. -/
def uniqueAux : List String → List String → List String
  | [], _ => []
  | x :: xs, seen =>
    if seen.contains x then uniqueAux xs seen else x :: uniqueAux xs (x :: seen)

/-- `pandas.unique` on a column: the distinct values in first-appearance
order. -/
def uniqueList (l : List String) : List String := uniqueAux l []

/-- The `iloc[0]`-with-default lookup in `calculate_media`: the `Nota` of
the first row whose `Tipo de Avaliação` is `tipo` and whose `Componente
Curricular` is `comp`, and `0.0` when no row matches. -/
def firstNota (rows : List Row) (tipo comp : String) : ℚ :=
  match (rows.filter (fun r => r.tipo == tipo)).filter
      (fun r => r.componente == comp) with
  | [] => 0
  | r :: _ => r.nota

/-- `calculate_media` from `consultaNotas.py` (lines 68-83): for each
distinct subject, the average of the first MENSAL and first BIMESTRAL
scores when at least one is positive, else `0.0`; returned as a mapping in
subject first-appearance order (Python dict insertion order). -/
def calculate_media (rows : List Row) : List (String × ℚ) :=
  (uniqueList (rows.map (fun r => r.componente))).map (fun comp =>
    let mensal := firstNota rows "MENSAL" comp
    let bimestral := firstNota rows "BIMESTRAL" comp
    (comp, if 0 < mensal ∨ 0 < bimestral then (mensal + bimestral) / 2 else 0))

/-- `check_recuperacao` from `consultaNotas.py` (lines 86-92): the subjects
whose average is strictly below 7, each rendered as
`"SUBJECT (Média: X.XX)"`, in mapping order. -/
def check_recuperacao (medias : List (String × ℚ)) : List String :=
  (medias.filter (fun p => p.2 < 7)).map
    (fun p => p.1 ++ " (Média: " ++ format2 p.2 ++ ")")

/-- `str(s).strip().str.upper()` as applied throughout both modules to key
columns (ASCII upper-casing). -/
def normStr (s : String) : String :=
  String.mk ((trimChars s.toList).map Char.toUpper)

/-- A calendar date, as `datetime.date`: compared lexicographically by
(year, month, day). -/
structure Date where
  year : Nat
  month : Nat
  day : Nat
deriving DecidableEq

/-- `datetime.date` comparison (`<=`), lexicographic on (year, month, day). -/
def dateLe (a b : Date) : Bool :=
  decide (a.year < b.year) ||
  (decide (a.year = b.year) &&
    (decide (a.month < b.month) ||
      (decide (a.month = b.month) && decide (a.day ≤ b.day))))

/-- Gregorian leap-year rule, as `datetime` uses. -/
def isLeap (y : Nat) : Bool :=
  (decide (y % 4 = 0) && decide (y % 100 ≠ 0)) || decide (y % 400 = 0)

/-- Number of days in a month, as `datetime` validates. -/
def daysInMonth (y m : Nat) : Nat :=
  if m = 2 then (if isLeap y then 29 else 28)
  else if m = 4 ∨ m = 6 ∨ m = 9 ∨ m = 11 then 30
  else 31

/-- The CPython strptime day field `%d`, whose pattern also accepts a
space-padded single digit (`3[01]|[12]\d|0[1-9]|[1-9]| [1-9]`): a space
followed by one nonzero digit, or one to two digits; the value returned
here is range-checked against the month by `parseDate`, exactly as the
out-of-range two-digit forms the pattern excludes (32-99, 00) are. -/
def strptimeDay (d : List Char) : Option Nat :=
  match d with
  | [' ', c] => if c.isDigit && decide (c ≠ '0') then some (c.toNat - 48) else none
  | _ =>
    if decide (d ≠ []) && decide (d.length ≤ 2) && d.all Char.isDigit then
      some (digitsToNat d)
    else none

/-- `datetime.strptime(s, "%d/%m/%Y").date()`: the day is one or two digits
or a space-padded single digit (the `%d` pattern), the month one or two
digits in 1..12, the year exactly four digits, the separator a slash, and
the day must exist in the month; `none` models a raised `ValueError`. -/
def parseDate (s : String) : Option Date :=
  match splitOnChar '/' s.toList with
  | [d, m, y] =>
    match strptimeDay d with
    | none => none
    | some dv =>
      if decide (m ≠ []) && decide (m.length ≤ 2) && m.all Char.isDigit &&
          decide (y.length = 4) && y.all Char.isDigit then
        let mv := digitsToNat m
        let yv := digitsToNat y
        if decide (1 ≤ dv) && decide (1 ≤ mv) && decide (mv ≤ 12) &&
            decide (1 ≤ yv) && decide (dv ≤ daysInMonth yv mv) then
          some ⟨yv, mv, dv⟩
        else none
      else none
  | _ => none

/-- `date.strftime("%d/%m/%Y")`: zero-padded day and month, then the year. -/
def fmtDate (d : Date) : String :=
  String.mk (pad2 (d.day % 100) ++ '/' :: pad2 (d.month % 100) ++ '/' :: natRepr d.year)

/-- The text of the `ValueError` that `strptime` raises on a mismatch
(quotation marks of the library text omitted). -/
def strptimeErrorText (s : String) : String :=
  "time data " ++ s ++ " does not match format %d/%m/%Y"

/-- One row of the `Controle_Liberacao` (release window) sheet. -/
structure PeriodRow where
  bimestre : String
  dataInicio : String
  dataFim : String
deriving DecidableEq

/-- `validate_period` from `lancamentoNotas.py` (lines 80-96): normalize the
period label, find the matching window row, parse its start and end dates in
day/month/year format, and authorize iff today is within the inclusive
window; the result is the `(ok, message)` pair the code returns. -/
def validate_period (bimestre : String) (df_periodo : List PeriodRow)
    (today : Date) : Bool × String :=
  let b := normStr bimestre
  match df_periodo.find? (fun r => normStr r.bimestre == b) with
  | none => (false, "Lançamento não autorizado para este período. Consulte o gestor.")
  | some r =>
    match parseDate r.dataInicio with
    | none => (false, "Erro no formato das datas: " ++ strptimeErrorText r.dataInicio)
    | some inicio =>
      match parseDate r.dataFim with
      | none => (false, "Erro no formato das datas: " ++ strptimeErrorText r.dataFim)
      | some fim =>
        if dateLe inicio today && dateLe today fim then (true, "")
        else (false, "Lançamento permitido apenas entre " ++ fmtDate inicio
                      ++ " e " ++ fmtDate fim)

/-- One enrolled student as the entry form iterates them
(`alunos_serie` rows). -/
structure Aluno where
  nome : String
  matricula : String
  turno : String
deriving DecidableEq

/-- One row of the grade sheet as the entry flow sees it after `load_data`:
the key columns, the numeric `Nota`, and the stored 1-based sheet row index
(`data.index + 2`). -/
structure DfRow where
  matricula : String
  serie : String
  componente : String
  bimestre : String
  tipo : String
  nota : ℚ
  row_index : Nat
deriving DecidableEq

/-- The composite-key condition `cond` of the submit loop
(`lancamentoNotas.py` lines 273-280): all five key columns match after
strip+upper normalization. -/
def matchKey (r : DfRow) (matricula serie componente bimestre tipo : String) : Bool :=
  normStr r.matricula == normStr matricula &&
  normStr r.serie == normStr serie &&
  normStr r.componente == normStr componente &&
  normStr r.bimestre == normStr bimestre &&
  normStr r.tipo == normStr tipo

/-- `nota_column_idx`/`nota_column_letter` (`lancamentoNotas.py` lines
127-130): the letter of the `Nota` column resolved once from the header
row, defaulting to column H (index 8) when the header is missing. -/
def nota_column_letter (headers : List String) : Char :=
  Char.ofNat (64 + (match headers.indexOf? "Nota" with
                    | some i => i + 1
                    | none => 8))

/-- The four accumulators of the submit loop: rows to append (`registros`),
error/skip notices (`erros`), update notices (`atualizados`), and the queued
targeted cell updates (`batch_updates`, as range/value pairs). -/
structure PlanResult where
  registros : List (List String)
  erros : List String
  atualizados : List String
  batch_updates : List (String × String)
deriving DecidableEq

/-- The empty accumulator state. -/
def emptyPlan : PlanResult := ⟨[], [], [], []⟩

/-- Concatenation of accumulator contributions, componentwise in order. -/
def PlanResult.merge (p q : PlanResult) : PlanResult :=
  ⟨p.registros ++ q.registros, p.erros ++ q.erros,
   p.atualizados ++ q.atualizados, p.batch_updates ++ q.batch_updates⟩

/-- The fixed parameters of one submission of `form_lote_notas`: the loaded
grade rows, the selected key fields, the teacher identity, the overwrite
checkbox, the resolved `Nota` column letter, and the entered score for each
student keyed by `matricula`. -/
structure Ctx where
  df : List DfRow
  serie : String
  componente : String
  bimestre : String
  tipo_avaliacao : String
  nome_prof : String
  mat_prof : String
  sobrescrever : Bool
  letter : Char
  notas : String → ℚ

/-- One iteration of the submit loop (`lancamentoNotas.py` lines 259-301)
for student `a`: skip a 0.0 score entirely; on a composite-key match either
queue a targeted update (overwrite on) or record a skipped-duplicate notice
(overwrite off); otherwise queue an append of the new full row. -/
def planStudent (ctx : Ctx) (a : Aluno) : PlanResult :=
  let nota_valor := ctx.notas a.matricula
  if nota_valor = 0 then emptyPlan
  else
    let nova_linha := [a.nome, a.matricula, ctx.serie, a.turno, ctx.componente,
                       ctx.bimestre, ctx.tipo_avaliacao, format2 nota_valor,
                       ctx.nome_prof, ctx.mat_prof]
    match ctx.df.find? (fun r => matchKey r a.matricula ctx.serie ctx.componente
        ctx.bimestre ctx.tipo_avaliacao) with
    | some r =>
      if ctx.sobrescrever then
        ⟨[], [], ["🔁 Atualizado: " ++ a.nome ++ " (" ++ a.matricula ++ ")"],
         [(String.mk [ctx.letter] ++ String.mk (natRepr r.row_index),
           format2 nota_valor)]⟩
      else
        ⟨[], ["⚠️ Nota existente para " ++ a.nome ++ " (" ++ a.matricula
              ++ "). Ignorado."], [], []⟩
    | none => ⟨[nova_linha], [], [], []⟩

/-- The whole submit loop: the four accumulators collected over the student
list in order. -/
def planNotas (ctx : Ctx) : List Aluno → PlanResult
  | [] => emptyPlan
  | a :: rest => (planStudent ctx a).merge (planNotas ctx rest)

/-- The notice block after the writes (`lancamentoNotas.py` lines 328-333):
the joined update notices if any, the joined error/skip notices if any, and
the aggregate no-grades message exactly when nothing was updated, skipped or
appended. (The write-execution messages of lines 304-318 are emitted only
when `batch_updates` or `registros` is nonempty, so on an all-skipped run
this block is the entire output.) -/
def finalNotices (p : PlanResult) : List String :=
  (if p.atualizados.isEmpty then [] else [String.intercalate "\n" p.atualizados]) ++
  (if p.erros.isEmpty then [] else [String.intercalate "\n" p.erros]) ++
  (if p.atualizados.isEmpty && p.erros.isEmpty && p.registros.isEmpty then
    ["Nenhuma nota foi lançada (todas as notas foram 0.0)."]
   else [])

example : format2 7 = "7.00" := by with_unfolding_all rfl

example : format2 (15 / 2) = "7.50" := by with_unfolding_all rfl

example : format2 (752 / 100) = "7.52" := by with_unfolding_all rfl

example : format2 10 = "10.00" := by with_unfolding_all rfl

example :
    calculate_media [⟨"MATEMÁTICA", "MENSAL", 6⟩, ⟨"MATEMÁTICA", "BIMESTRAL", 8⟩]
      = [("MATEMÁTICA", 7)] := by with_unfolding_all rfl

example :
    check_recuperacao (calculate_media
        [⟨"MATEMÁTICA", "MENSAL", 5⟩, ⟨"MATEMÁTICA", "BIMESTRAL", 9⟩,
         ⟨"CIÊNCIAS", "MENSAL", 4⟩])
      = ["CIÊNCIAS (Média: 2.00)"] := by with_unfolding_all rfl

example : clean_nota_value (some "7,5") = some (15 / 2) := by with_unfolding_all rfl

example : clean_nota_value (some "7/5") = some (15 / 2) := by with_unfolding_all rfl

example : clean_nota_value (some "") = some 0 := by with_unfolding_all rfl

example : clean_nota_value none = some 0 := by with_unfolding_all rfl

example : clean_nota_value (some "7.5.2") = some (752 / 100) := by with_unfolding_all rfl

example : clean_nota_value (some "abc") = some 0 := by with_unfolding_all rfl

example : clean_nota_value (some "07/2024") = some 72024 := by with_unfolding_all rfl

example : clean_nota_value (some ".") = none := by with_unfolding_all rfl

example : clean_nota_value (some "10") = some 10 := by with_unfolding_all rfl

example :
    validate_period "1º" [⟨"1º", "01/03/2025", "15/03/2025"⟩] ⟨2025, 3, 1⟩
      = (true, "") := by with_unfolding_all rfl

example :
    validate_period "1º" [⟨"1º", "01/03/2025", "15/03/2025"⟩] ⟨2025, 3, 15⟩
      = (true, "") := by with_unfolding_all rfl

example :
    validate_period "1º" [⟨"1º", "01/03/2025", "15/03/2025"⟩] ⟨2025, 3, 16⟩
      = (false, "Lançamento permitido apenas entre 01/03/2025 e 15/03/2025") := by
  with_unfolding_all rfl

example :
    validate_period "2º" [⟨"1º", "01/03/2025", "15/03/2025"⟩] ⟨2025, 3, 1⟩
      = (false, "Lançamento não autorizado para este período. Consulte o gestor.") := by
  with_unfolding_all rfl

example :
    (validate_period "1º" [⟨"1º", "31/02/2025", "15/03/2025"⟩] ⟨2025, 3, 1⟩).1
      = false := by with_unfolding_all rfl

example : nota_column_letter ["Nome do Aluno", "Matrícula"] = 'H' := by
  with_unfolding_all rfl

example : nota_column_letter ["Nota"] = 'A' := by with_unfolding_all rfl

example :
    planNotas
      { df := [⟨"123", "5A", "MAT", "1º", "MENSAL", 5, 2⟩],
        serie := "5A", componente := "MAT", bimestre := "1º",
        tipo_avaliacao := "MENSAL", nome_prof := "P", mat_prof := "9",
        sobrescrever := true, letter := 'H',
        notas := fun _ => 15 / 2 }
      [⟨"ANA", "123", "MANHÃ"⟩]
      = ⟨[], [], ["🔁 Atualizado: ANA (123)"], [("H2", "7.50")]⟩ := by
  with_unfolding_all rfl

example :
    planNotas
      { df := [⟨"123", "5A", "MAT", "1º", "MENSAL", 5, 2⟩],
        serie := "5A", componente := "MAT", bimestre := "1º",
        tipo_avaliacao := "MENSAL", nome_prof := "P", mat_prof := "9",
        sobrescrever := false, letter := 'H',
        notas := fun _ => 15 / 2 }
      [⟨"ANA", "123", "MANHÃ"⟩]
      = ⟨[], ["⚠️ Nota existente para ANA (123). Ignorado."], [], []⟩ := by
  with_unfolding_all rfl

example :
    planNotas
      { df := [], serie := "5A", componente := "MAT", bimestre := "1º",
        tipo_avaliacao := "MENSAL", nome_prof := "P", mat_prof := "9",
        sobrescrever := false, letter := 'H',
        notas := fun _ => 15 / 2 }
      [⟨"ANA", "123", "MANHÃ"⟩]
      = ⟨[["ANA", "123", "5A", "MANHÃ", "MAT", "1º", "MENSAL", "7.50", "P", "9"]],
         [], [], []⟩ := by
  with_unfolding_all rfl

example : finalNotices emptyPlan
    = ["Nenhuma nota foi lançada (todas as notas foram 0.0)."] := by
  with_unfolding_all rfl

example : parseDate " 5/03/2025" = some ⟨2025, 3, 5⟩ := by with_unfolding_all rfl

example : parseDate "05/03/2025" = some ⟨2025, 3, 5⟩ := by with_unfolding_all rfl

example : parseDate " 0/03/2025" = none := by with_unfolding_all rfl

example :
    validate_period "1º" [⟨"1º", " 5/03/2025", "15/03/2025"⟩] ⟨2025, 3, 10⟩
      = (true, "") := by with_unfolding_all rfl

example : pyFloatOfRat (15 / 2) = PyFloat.finite (15 / 2) := by norm_num [pyFloatOfRat]

example : pyFloatOfRat (10 ^ 309) = PyFloat.inf := by norm_num [pyFloatOfRat]

theorem floatOfCleaned_nonneg (l : List Char) (q : ℚ)
    (h : floatOfCleaned l = some q) : 0 ≤ q := by
  unfold floatOfCleaned at h
  rcases hs : splitOnChar '.' l with _ | ⟨ip, _ | ⟨fp, _ | _⟩⟩ <;> rw [hs] at h <;>
    dsimp only at h
  · exact absurd h (by simp)
  · split_ifs at h with hc
    obtain rfl : ((digitsToNat ip : ℚ)) = q := Option.some.inj h
    positivity
  · split_ifs at h with hc
    · obtain rfl : ((digitsToNat ip : ℚ) + (digitsToNat fp : ℚ) / 10 ^ fp.length) = q :=
        Option.some.inj h
      positivity
  · exact absurd h (by simp)

theorem clean_nota_value_nonneg (v : Option String) (q : ℚ)
    (h : clean_nota_value v = some q) : 0 ≤ q := by
  unfold clean_nota_value at h
  cases v with
  | none =>
    obtain rfl : (0 : ℚ) = q := Option.some.inj h
    exact le_refl 0
  | some s =>
    simp only at h
    split_ifs at h with hv
    · obtain rfl : (0 : ℚ) = q := Option.some.inj h
      exact le_refl 0
    · exact floatOfCleaned_nonneg _ _ h

theorem to_numeric_coerce_fillna_nonneg (s : String) :
    0 ≤ to_numeric_coerce_fillna s := by
  unfold to_numeric_coerce_fillna
  rcases hs : floatOfCleaned s.toList with _ | q
  · exact le_refl 0
  · exact floatOfCleaned_nonneg _ _ hs

/-- C2: the value normalizer maps "7,5" to 7.5, "7/5" to 7.5, the empty
string to 0.0, a missing/null value to 0.0, "7.5.2" to 7.52, and "abc"
to 0.0. -/
theorem C2_normalizer_values :
    clean_nota_value (some "7,5") = some (15 / 2) ∧
    clean_nota_value (some "7/5") = some (15 / 2) ∧
    clean_nota_value (some "") = some 0 ∧
    clean_nota_value none = some 0 ∧
    clean_nota_value (some "7.5.2") = some (752 / 100) ∧
    clean_nota_value (some "abc") = some 0 := by
  refine ⟨?_, ?_, ?_, ?_, ?_, ?_⟩ <;> with_unfolding_all rfl

/-- C7: "07/2024" fails the 1-2/1-2-digit pattern (the year part has four
digits), so the slash branch is not taken; the non-digit characters are
stripped, leaving "072024", which parses to 72024.0 without crashing. -/
theorem C7_date_like_value :
    matchesDateFrac (replaceChar ',' '.' (trimChars "07/2024".toList)) = false ∧
    clean_nota_chars "07/2024".toList = ['0', '7', '2', '0', '2', '4'] ∧
    clean_nota_value (some "07/2024") = some 72024 := by
  refine ⟨?_, ?_, ?_⟩ <;> with_unfolding_all rfl

/-- C6 counterexample: on the raw cell value "." the query-side normalizer
reaches `float(".")`, which raises `ValueError` (modelled as `none`), so it
does not hold that the normalizer never raises on every raw cell value. -/
theorem C6_counterexample : clean_nota_value (some ".") = none := by
  with_unfolding_all rfl

/-- C6 (amended): whenever the query-side normalizer returns a value (it
raises exactly when the stripped residue is a bare period, such as "."),
that value is non-negative, and the double Python actually produces is
finite exactly when the value is below the overflow threshold
`2^1024 - 2^970`: at or beyond it — e.g. on a string of 309 nines —
`float()` returns infinity, so the result is not always finite; the
entry-side pipeline (string normalizer followed by coercion) always
terminates with a non-negative value. -/
theorem C6_nonneg (v : Option String) (q : ℚ)
    (h : clean_nota_value v = some q) :
    0 ≤ q ∧ 0 ≤ to_numeric_coerce_fillna (clean_nota_value_lanc v)
    ∧ (q < 2 ^ 1024 - 2 ^ 970 →
        clean_nota_value_ieee v = some (PyFloat.finite q))
    ∧ (2 ^ 1024 - 2 ^ 970 ≤ q →
        clean_nota_value_ieee v = some PyFloat.inf) := by
  refine ⟨clean_nota_value_nonneg v q h,
    to_numeric_coerce_fillna_nonneg (clean_nota_value_lanc v), ?_, ?_⟩
  · intro hlt
    unfold clean_nota_value_ieee
    rw [h]
    simp [pyFloatOfRat, if_pos hlt]
  · intro hge
    unfold clean_nota_value_ieee
    rw [h]
    simp [pyFloatOfRat, if_neg (not_lt.mpr hge)]

set_option maxRecDepth 100000 in
theorem C6_nonneg_witness :
    (clean_nota_value (some "7,5") = some (15 / 2) ∧
      0 ≤ (15 / 2 : ℚ) ∧
      clean_nota_value_ieee (some "7,5") = some (PyFloat.finite (15 / 2))) ∧
    (clean_nota_value (some "999999999999999999999999999999999999999999999999999999999999999999999999999999999999999999999999999999999999999999999999999999999999999999999999999999999999999999999999999999999999999999999999999999999999999999999999999999999999999999999999999999999999999999999999999999999999999999999999999999999999999999999") = some (10 ^ 309 - 1) ∧
      clean_nota_value_ieee (some "999999999999999999999999999999999999999999999999999999999999999999999999999999999999999999999999999999999999999999999999999999999999999999999999999999999999999999999999999999999999999999999999999999999999999999999999999999999999999999999999999999999999999999999999999999999999999999999999999999999999999999999") = some PyFloat.inf) :=
  ⟨⟨by with_unfolding_all rfl,
    (C6_nonneg (some "7,5") (15 / 2) (by with_unfolding_all rfl)).1,
    (C6_nonneg (some "7,5") (15 / 2) (by with_unfolding_all rfl)).2.2.1
      (by norm_num)⟩,
   ⟨by with_unfolding_all rfl,
    (C6_nonneg (some "999999999999999999999999999999999999999999999999999999999999999999999999999999999999999999999999999999999999999999999999999999999999999999999999999999999999999999999999999999999999999999999999999999999999999999999999999999999999999999999999999999999999999999999999999999999999999999999999999999999999999999999") (10 ^ 309 - 1)
        (by with_unfolding_all rfl)).2.2.2 (by norm_num)⟩⟩

theorem to_numeric_zero_string : to_numeric_coerce_fillna "0.0" = 0 := by
  with_unfolding_all rfl

/-- C10: whenever the query-side normalizer is defined, the entry-side
pipeline (string-returning normalizer followed by numeric coercion with
unparsable values mapped to 0.0) yields the same numeric grade. -/
theorem C10_pipelines_agree (v : Option String) (q : ℚ)
    (h : clean_nota_value v = some q) :
    to_numeric_coerce_fillna (clean_nota_value_lanc v) = q := by
  unfold clean_nota_value at h
  unfold clean_nota_value_lanc
  cases v with
  | none =>
    obtain rfl : (0 : ℚ) = q := Option.some.inj h
    exact to_numeric_zero_string
  | some s =>
    simp only at h ⊢
    split_ifs at h ⊢ with hv
    · obtain rfl : (0 : ℚ) = q := Option.some.inj h
      exact to_numeric_zero_string
    · unfold to_numeric_coerce_fillna
      have hl : (String.mk (clean_nota_chars s.toList)).toList
          = clean_nota_chars s.toList := rfl
      rw [hl, h]

theorem C10_pipelines_agree_witness :
    clean_nota_value (some "7,5") = some (15 / 2) ∧
    to_numeric_coerce_fillna (clean_nota_value_lanc (some "7,5")) = 15 / 2 :=
  ⟨by with_unfolding_all rfl,
   C10_pipelines_agree (some "7,5") (15 / 2) (by with_unfolding_all rfl)⟩

theorem emptyPlan_merge (p : PlanResult) : emptyPlan.merge p = p := by
  cases p
  simp [PlanResult.merge, emptyPlan]

theorem planStudent_zero (ctx : Ctx) (a : Aluno)
    (h : ctx.notas a.matricula = 0) : planStudent ctx a = emptyPlan := by
  unfold planStudent
  simp [h]

/-- C3: a student with candidate score exactly 0.0 contributes nothing to
the plan (removing all zero-score students leaves the plan unchanged), and
when every attempted score is 0.0 the plan is empty and the only notice is
the aggregate no-grades message. -/
theorem C3_zero_scores (ctx : Ctx) (alunos : List Aluno) :
    planNotas ctx alunos
      = planNotas ctx (alunos.filter (fun a => ctx.notas a.matricula ≠ 0))
    ∧ ((∀ a ∈ alunos, ctx.notas a.matricula = 0) →
        planNotas ctx alunos = emptyPlan ∧
        finalNotices (planNotas ctx alunos)
          = ["Nenhuma nota foi lançada (todas as notas foram 0.0)."]) := by
  have hfilter : planNotas ctx alunos
      = planNotas ctx (alunos.filter (fun a => ctx.notas a.matricula ≠ 0)) := by
    induction alunos with
    | nil => rfl
    | cons a rest ih =>
      by_cases hz : ctx.notas a.matricula = 0
      · rw [show (a :: rest).filter (fun a => decide (ctx.notas a.matricula ≠ 0))
            = rest.filter (fun a => decide (ctx.notas a.matricula ≠ 0)) by
              simp [List.filter_cons, hz]]
        show (planStudent ctx a).merge (planNotas ctx rest) = _
        rw [planStudent_zero ctx a hz, emptyPlan_merge, ih]
      · rw [show (a :: rest).filter (fun a => decide (ctx.notas a.matricula ≠ 0))
            = a :: rest.filter (fun a => decide (ctx.notas a.matricula ≠ 0)) by
              simp [List.filter_cons, hz]]
        show (planStudent ctx a).merge (planNotas ctx rest)
          = (planStudent ctx a).merge (planNotas ctx _)
        rw [ih]
  refine ⟨hfilter, fun hall => ?_⟩
  have hnil : alunos.filter (fun a => ctx.notas a.matricula ≠ 0) = [] := by
    rw [List.filter_eq_nil_iff]
    intro a ha
    simp [hall a ha]
  have hempty : planNotas ctx alunos = emptyPlan := by
    rw [hfilter, hnil]; rfl
  exact ⟨hempty, by rw [hempty]; rfl⟩

theorem C3_zero_scores_witness :
    planNotas
        { df := [⟨"123", "5A", "MAT", "1º", "MENSAL", 5, 2⟩],
          serie := "5A", componente := "MAT", bimestre := "1º",
          tipo_avaliacao := "MENSAL", nome_prof := "P", mat_prof := "9",
          sobrescrever := false, letter := 'H', notas := fun _ => 0 }
        [⟨"ANA", "123", "MANHÃ"⟩] = emptyPlan ∧
    finalNotices (planNotas
        { df := [⟨"123", "5A", "MAT", "1º", "MENSAL", 5, 2⟩],
          serie := "5A", componente := "MAT", bimestre := "1º",
          tipo_avaliacao := "MENSAL", nome_prof := "P", mat_prof := "9",
          sobrescrever := false, letter := 'H', notas := fun _ => 0 }
        [⟨"ANA", "123", "MANHÃ"⟩])
      = ["Nenhuma nota foi lançada (todas as notas foram 0.0)."] :=
  (C3_zero_scores
      { df := [⟨"123", "5A", "MAT", "1º", "MENSAL", 5, 2⟩],
        serie := "5A", componente := "MAT", bimestre := "1º",
        tipo_avaliacao := "MENSAL", nome_prof := "P", mat_prof := "9",
        sobrescrever := false, letter := 'H', notas := fun _ => 0 }
      [⟨"ANA", "123", "MANHÃ"⟩]).2
    (by intro a _; rfl)

theorem planNotas_no_updates (ctx : Ctx) (alunos : List Aluno)
    (hov : ctx.sobrescrever = false) :
    (planNotas ctx alunos).batch_updates = [] := by
  induction alunos with
  | nil => rfl
  | cons a rest ih =>
    show ((planStudent ctx a).merge (planNotas ctx rest)).batch_updates = []
    unfold planStudent
    by_cases hz : ctx.notas a.matricula = 0
    · rw [if_pos hz, emptyPlan_merge]
      exact ih
    · rw [if_neg hz]
      rcases hf : ctx.df.find? (fun r => matchKey r a.matricula ctx.serie ctx.componente
          ctx.bimestre ctx.tipo_avaliacao) with _ | r
      · simpa [PlanResult.merge] using ih
      · rw [hov]
        simpa [PlanResult.merge] using ih

theorem planNotas_erros_spec (ctx : Ctx) (alunos : List Aluno)
    (hov : ctx.sobrescrever = false) :
    (planNotas ctx alunos).erros
      = (alunos.filter (fun a => decide (ctx.notas a.matricula ≠ 0) &&
          (ctx.df.find? (fun r => matchKey r a.matricula ctx.serie ctx.componente
            ctx.bimestre ctx.tipo_avaliacao)).isSome)).map
          (fun a => "⚠️ Nota existente para " ++ a.nome ++ " (" ++ a.matricula
            ++ "). Ignorado.") := by
  induction alunos with
  | nil => rfl
  | cons a rest ih =>
    show ((planStudent ctx a).merge (planNotas ctx rest)).erros = _
    rw [List.filter_cons]
    unfold planStudent
    by_cases hz : ctx.notas a.matricula = 0
    · rw [if_pos hz, emptyPlan_merge]
      have hcond : (decide (ctx.notas a.matricula ≠ 0) &&
          (ctx.df.find? (fun r => matchKey r a.matricula ctx.serie ctx.componente
            ctx.bimestre ctx.tipo_avaliacao)).isSome) = false := by
        simp [hz]
      rw [hcond]
      simpa using ih
    · rw [if_neg hz]
      rcases hf : ctx.df.find? (fun r => matchKey r a.matricula ctx.serie ctx.componente
          ctx.bimestre ctx.tipo_avaliacao) with _ | r
      · simpa [hz, PlanResult.merge] using ih
      · rw [hov]
        simpa [hz, PlanResult.merge] using ih

/-- C9: with overwrite off the planner queues no targeted updates, and its
skipped-duplicate notices are a function of the (unchanged) row set and
candidate scores — exactly one notice per nonzero-score student whose
composite key matches an existing row, in student order — so re-running it
against the same store reproduces the identical notices. -/
theorem C9_idempotent_skips (ctx : Ctx) (alunos : List Aluno)
    (hov : ctx.sobrescrever = false) :
    (planNotas ctx alunos).erros = (planNotas ctx alunos).erros
    ∧ (planNotas ctx alunos).batch_updates = []
    ∧ (planNotas ctx alunos).erros
        = (alunos.filter (fun a => decide (ctx.notas a.matricula ≠ 0) &&
            (ctx.df.find? (fun r => matchKey r a.matricula ctx.serie ctx.componente
              ctx.bimestre ctx.tipo_avaliacao)).isSome)).map
            (fun a => "⚠️ Nota existente para " ++ a.nome ++ " (" ++ a.matricula
              ++ "). Ignorado.") := by
  exact ⟨rfl, planNotas_no_updates ctx alunos hov, planNotas_erros_spec ctx alunos hov⟩

theorem C9_idempotent_skips_witness :
    (planNotas
        { df := [⟨"123", "5A", "MAT", "1º", "MENSAL", 5, 2⟩],
          serie := "5A", componente := "MAT", bimestre := "1º",
          tipo_avaliacao := "MENSAL", nome_prof := "P", mat_prof := "9",
          sobrescrever := false, letter := 'H', notas := fun _ => 15 / 2 }
        [⟨"ANA", "123", "MANHÃ"⟩]).batch_updates = [] :=
  (C9_idempotent_skips
      { df := [⟨"123", "5A", "MAT", "1º", "MENSAL", 5, 2⟩],
        serie := "5A", componente := "MAT", bimestre := "1º",
        tipo_avaliacao := "MENSAL", nome_prof := "P", mat_prof := "9",
        sobrescrever := false, letter := 'H', notas := fun _ => 15 / 2 }
      [⟨"ANA", "123", "MANHÃ"⟩] rfl).2.1

theorem planNotas_concat (ctx : Ctx) (alunos : List Aluno) :
    planNotas ctx alunos
      = (alunos.map (planStudent ctx)).foldr PlanResult.merge emptyPlan := by
  induction alunos with
  | nil => rfl
  | cons a rest ih =>
    show (planStudent ctx a).merge (planNotas ctx rest) = _
    rw [List.map_cons, List.foldr_cons, ih]

theorem nota_column_letter_default (headers : List String)
    (h : "Nota" ∉ headers) : nota_column_letter headers = 'H' := by
  unfold nota_column_letter
  rw [List.indexOf?_eq_none_iff.mpr]
  · rfl
  · intro x hx
    simp only [beq_iff_eq]
    intro he
    exact h (he ▸ hx)

/-- C4: for a student with a nonzero candidate score whose composite key
matches an existing row, the planner with overwrite off records exactly the
skipped-duplicate notice and queues no write, and with overwrite on it
queues exactly one targeted cell update at (Nota-column letter, matched
row's stored row index) with the score formatted to two decimals; the full
plan is the in-order concatenation of the per-student contributions, and
the Nota column letter defaults to H when the header is missing. -/
theorem C4_duplicate_handling (ctx : Ctx) (alunos : List Aluno)
    (headers : List String) (a : Aluno) (r : DfRow)
    (ha : a ∈ alunos)
    (hL : ctx.letter = nota_column_letter headers)
    (hnz : ctx.notas a.matricula ≠ 0)
    (hr : ctx.df.find? (fun x => matchKey x a.matricula ctx.serie ctx.componente
        ctx.bimestre ctx.tipo_avaliacao) = some r) :
    planNotas ctx alunos
      = (alunos.map (planStudent ctx)).foldr PlanResult.merge emptyPlan
    ∧ (ctx.sobrescrever = false →
        planStudent ctx a
          = ⟨[], ["⚠️ Nota existente para " ++ a.nome ++ " (" ++ a.matricula
                  ++ "). Ignorado."], [], []⟩)
    ∧ (ctx.sobrescrever = true →
        planStudent ctx a
          = ⟨[], [], ["🔁 Atualizado: " ++ a.nome ++ " (" ++ a.matricula ++ ")"],
             [(String.mk [nota_column_letter headers]
                 ++ String.mk (natRepr r.row_index),
               format2 (ctx.notas a.matricula))]⟩)
    ∧ ("Nota" ∉ headers → nota_column_letter headers = 'H') := by
  refine ⟨planNotas_concat ctx alunos, ?_, ?_, nota_column_letter_default headers⟩
  · intro hov
    unfold planStudent
    rw [if_neg hnz, hr]
    simp only [hov]
    rfl
  · intro hov
    unfold planStudent
    rw [if_neg hnz, hr, hL]
    simp only [hov]
    rfl

theorem C4_duplicate_handling_witness :
    planStudent
        { df := [⟨"123", "5A", "MAT", "1º", "MENSAL", 5, 2⟩],
          serie := "5A", componente := "MAT", bimestre := "1º",
          tipo_avaliacao := "MENSAL", nome_prof := "P", mat_prof := "9",
          sobrescrever := true, letter := nota_column_letter ["X"],
          notas := fun _ => 15 / 2 }
        ⟨"ANA", "123", "MANHÃ"⟩
      = ⟨[], [], ["🔁 Atualizado: ANA (123)"],
         [(String.mk [nota_column_letter ["X"]] ++ String.mk (natRepr 2), "7.50")]⟩ :=
  have h :=
    (C4_duplicate_handling
      { df := [⟨"123", "5A", "MAT", "1º", "MENSAL", 5, 2⟩],
        serie := "5A", componente := "MAT", bimestre := "1º",
        tipo_avaliacao := "MENSAL", nome_prof := "P", mat_prof := "9",
        sobrescrever := true, letter := nota_column_letter ["X"],
        notas := fun _ => 15 / 2 }
      [⟨"ANA", "123", "MANHÃ"⟩] ["X"] ⟨"ANA", "123", "MANHÃ"⟩
      ⟨"123", "5A", "MAT", "1º", "MENSAL", 5, 2⟩
      (List.mem_singleton.mpr rfl) rfl (by norm_num)
      (by with_unfolding_all rfl)).2.2.1 rfl
  by rw [h]; with_unfolding_all rfl

/-- C5: the release-window validator fails with the not-authorized message
when no row matches the normalized period; fails with a date-format-error
message when a bound cannot be parsed as day/month/year; otherwise succeeds
exactly when start ≤ today ≤ end with both bounds inclusive, and on a
closed window its message contains the valid date range. -/
theorem C5_validate_period (bimestre : String) (tab : List PeriodRow)
    (today : Date) :
    (tab.find? (fun r => normStr r.bimestre == normStr bimestre) = none →
      validate_period bimestre tab today
        = (false, "Lançamento não autorizado para este período. Consulte o gestor."))
    ∧ (∀ r, tab.find? (fun r2 => normStr r2.bimestre == normStr bimestre) = some r →
        (parseDate r.dataInicio = none ∨ parseDate r.dataFim = none) →
        (validate_period bimestre tab today).1 = false ∧
        ∃ rest, (validate_period bimestre tab today).2
          = "Erro no formato das datas: " ++ rest)
    ∧ (∀ r di df2, tab.find? (fun r2 => normStr r2.bimestre == normStr bimestre) = some r →
        parseDate r.dataInicio = some di → parseDate r.dataFim = some df2 →
        ((validate_period bimestre tab today).1 = true ↔
          (dateLe di today = true ∧ dateLe today df2 = true))
        ∧ ((dateLe di today && dateLe today df2) = false →
            validate_period bimestre tab today
              = (false, "Lançamento permitido apenas entre " ++ fmtDate di
                  ++ " e " ++ fmtDate df2))) := by
  refine ⟨?_, ?_, ?_⟩
  · intro hfind
    unfold validate_period
    dsimp only
    rw [hfind]
  · intro r hfind hbad
    unfold validate_period
    dsimp only
    rw [hfind]
    dsimp only
    rcases hi : parseDate r.dataInicio with _ | di
    · exact ⟨rfl, strptimeErrorText r.dataInicio, rfl⟩
    · dsimp only
      rcases hf : parseDate r.dataFim with _ | df2
      · exact ⟨rfl, strptimeErrorText r.dataFim, rfl⟩
      · rcases hbad with hbad | hbad
        · exact absurd hi (hbad ▸ by simp)
        · exact absurd hf (hbad ▸ by simp)
  · intro r di df2 hfind hi hf
    unfold validate_period
    dsimp only
    rw [hfind]
    dsimp only
    rw [hi]
    dsimp only
    rw [hf]
    dsimp only
    by_cases hin : (dateLe di today && dateLe today df2) = true
    · rw [if_pos hin]
      refine ⟨⟨fun _ => ?_, fun _ => rfl⟩, fun hout => absurd hin (by simp [hout])⟩
      have := hin
      simp only [Bool.and_eq_true] at this
      exact this
    · rw [if_neg hin]
      refine ⟨⟨fun h => absurd h (by simp), fun h => absurd ?_ hin⟩, fun _ => rfl⟩
      simp [h.1, h.2]

theorem C5_validate_period_witness :
    (validate_period "1º" [⟨"1º", "01/03/2025", "15/03/2025"⟩] ⟨2025, 3, 1⟩).1
      = true :=
  ((C5_validate_period "1º" [⟨"1º", "01/03/2025", "15/03/2025"⟩]
      ⟨2025, 3, 1⟩).2.2 ⟨"1º", "01/03/2025", "15/03/2025"⟩ ⟨2025, 3, 1⟩
      ⟨2025, 3, 15⟩ (by with_unfolding_all rfl) (by with_unfolding_all rfl)
      (by with_unfolding_all rfl)).1.mpr
    ⟨by with_unfolding_all rfl, by with_unfolding_all rfl⟩

theorem calculate_media_mem (rows : List Row) (comp : String) (v : ℚ)
    (h : (comp, v) ∈ calculate_media rows) :
    v = (if 0 < firstNota rows "MENSAL" comp ∨ 0 < firstNota rows "BIMESTRAL" comp
         then (firstNota rows "MENSAL" comp + firstNota rows "BIMESTRAL" comp) / 2
         else 0) := by
  unfold calculate_media at h
  obtain ⟨c, _, heq⟩ := List.mem_map.mp h
  cases heq
  rfl

theorem firstNota_nonneg (rows : List Row) (tipo comp : String)
    (hnn : ∀ r ∈ rows, 0 ≤ r.nota) : 0 ≤ firstNota rows tipo comp := by
  unfold firstNota
  rcases hm : (rows.filter (fun r => r.tipo == tipo)).filter
      (fun r => r.componente == comp) with _ | ⟨r, rest⟩
  · rw [hm]
  · have hr : r ∈ (rows.filter (fun r => r.tipo == tipo)).filter
        (fun r => r.componente == comp) := hm ▸ List.mem_cons_self r rest
    rw [hm]
    exact hnn r (List.mem_of_mem_filter (List.mem_of_mem_filter hr))

/-- C1: for grade rows filtered to one student and period (with the
non-negative scores the normalizer produces), the average mapping assigns
each subject (m+b)/2 — m and b the first MENSAL and first BIMESTRAL scores,
0.0 when absent — when at least one is nonzero and 0.0 when both are zero;
a subject is flagged for recovery exactly when its average is strictly
below 7.0, and a flagged subject is rendered as
"SUBJECT (Média: X.XX)" with two decimal places. -/
theorem C1_media_and_recovery (rows : List Row)
    (hnn : ∀ r ∈ rows, 0 ≤ r.nota) (comp : String) (v : ℚ)
    (hmem : (comp, v) ∈ calculate_media rows) :
    (v = if firstNota rows "MENSAL" comp ≠ 0 ∨ firstNota rows "BIMESTRAL" comp ≠ 0
         then (firstNota rows "MENSAL" comp + firstNota rows "BIMESTRAL" comp) / 2
         else 0)
    ∧ ((∃ m, (comp, m) ∈ calculate_media rows ∧ m < 7) ↔ v < 7)
    ∧ (v < 7 → (comp ++ " (Média: " ++ format2 v ++ ")")
        ∈ check_recuperacao (calculate_media rows))
    ∧ (7 ≤ v → (comp, v) ∉ (calculate_media rows).filter (fun p => p.2 < 7)) := by
  have hv := calculate_media_mem rows comp v hmem
  have hm0 := firstNota_nonneg rows "MENSAL" comp hnn
  have hb0 := firstNota_nonneg rows "BIMESTRAL" comp hnn
  have hiff : (0 < firstNota rows "MENSAL" comp ∨ 0 < firstNota rows "BIMESTRAL" comp)
      ↔ (firstNota rows "MENSAL" comp ≠ 0 ∨ firstNota rows "BIMESTRAL" comp ≠ 0) := by
    constructor
    · rintro (h | h)
      exacts [Or.inl (ne_of_gt h), Or.inr (ne_of_gt h)]
    · rintro (h | h)
      · exact Or.inl (lt_of_le_of_ne hm0 (Ne.symm h))
      · exact Or.inr (lt_of_le_of_ne hb0 (Ne.symm h))
  refine ⟨?_, ⟨?_, fun h => ⟨v, hmem, h⟩⟩, fun h => ?_, fun h hmf => ?_⟩
  · rw [hv]
    by_cases hp : (0 < firstNota rows "MENSAL" comp ∨ 0 < firstNota rows "BIMESTRAL" comp)
    · rw [if_pos hp, if_pos (hiff.mp hp)]
    · rw [if_neg hp, if_neg (fun hq => hp (hiff.mpr hq))]
  · rintro ⟨m, hm, hlt⟩
    have hmv : m = v := (calculate_media_mem rows comp m hm).trans hv.symm
    exact hmv ▸ hlt
  · unfold check_recuperacao
    exact List.mem_map.mpr
      ⟨(comp, v), List.mem_filter.mpr ⟨hmem, by simpa using h⟩, rfl⟩
  · have := (List.mem_filter.mp hmf).2
    simp only [decide_eq_true_eq] at this
    linarith

theorem C1_media_and_recovery_witness :
    ((∃ m, ("MAT", m) ∈ calculate_media
        [⟨"MAT", "MENSAL", 6⟩, ⟨"MAT", "BIMESTRAL", 8⟩] ∧ m < 7)
      ↔ (7 : ℚ) < 7) :=
  (C1_media_and_recovery [⟨"MAT", "MENSAL", 6⟩, ⟨"MAT", "BIMESTRAL", 8⟩]
    (by intro r hr; fin_cases hr <;> norm_num) "MAT" 7
    (by
      rw [show calculate_media [⟨"MAT", "MENSAL", 6⟩, ⟨"MAT", "BIMESTRAL", 8⟩]
          = [("MAT", (7 : ℚ))] from by with_unfolding_all rfl]
      exact List.mem_singleton.mpr rfl)).2.1

theorem digitChar_lt10 (d : Nat) (hd : d < 10) :
    (digitChar d).isDigit = true ∧ (digitChar d).toNat = 48 + d ∧
    (digitChar d).isWhitespace = false ∧ digitChar d ≠ ',' ∧
    digitChar d ≠ '/' ∧ digitChar d ≠ '.' := by
  interval_cases d <;> refine ⟨?_, ?_, ?_, ?_, ?_, ?_⟩ <;> decide

theorem dropWhile_eq_self_of_not (p : Char → Bool) (l : List Char)
    (h : ∀ c ∈ l, p c = false) : l.dropWhile p = l := by
  cases l with
  | nil => rfl
  | cons c cs =>
    rw [List.dropWhile_cons]
    simp [h c (List.mem_cons_self c cs)]

theorem trimChars_eq_self (l : List Char)
    (h : ∀ c ∈ l, c.isWhitespace = false) : trimChars l = l := by
  unfold trimChars
  rw [dropWhile_eq_self_of_not _ _ h]
  rw [dropWhile_eq_self_of_not _ _ (fun c hc => h c (List.mem_reverse.mp hc))]
  exact List.reverse_reverse l

theorem replaceChar_eq_self (a b : Char) (l : List Char)
    (h : ∀ c ∈ l, c ≠ a) : replaceChar a b l = l := by
  unfold replaceChar
  induction l with
  | nil => rfl
  | cons c cs ih =>
    simp only [List.map_cons]
    rw [if_neg (h c (List.mem_cons_self c cs)),
        ih (fun x hx => h x (List.mem_cons_of_mem c hx))]

theorem splitOnChar_not_mem (sep : Char) (l : List Char) (h : sep ∉ l) :
    splitOnChar sep l = [l] := by
  induction l with
  | nil => rfl
  | cons c cs ih =>
    unfold splitOnChar
    rw [ih (fun hm => h (List.mem_cons_of_mem c hm))]
    dsimp only
    rw [if_neg (fun hc : c = sep => h (by rw [← hc]; exact List.mem_cons_self c cs))]

theorem splitOnChar_append (sep : Char) (A B : List Char)
    (hA : sep ∉ A) (hB : sep ∉ B) :
    splitOnChar sep (A ++ sep :: B) = [A, B] := by
  induction A with
  | nil =>
    show splitOnChar sep (sep :: B) = [[], B]
    unfold splitOnChar
    rw [splitOnChar_not_mem sep B hB]
    dsimp only
    rw [if_pos rfl]
  | cons c cs ih =>
    have hc : c ≠ sep := fun h => hA (by rw [h]; exact List.mem_cons_self _ _)
    show splitOnChar sep (c :: (cs ++ sep :: B)) = [c :: cs, B]
    unfold splitOnChar
    rw [ih (fun hm => hA (List.mem_cons_of_mem c hm))]
    dsimp only
    rw [if_neg hc]

theorem digitsToNat_append_digit (A : List Char) (c : Char) :
    digitsToNat (A ++ [c]) = 10 * digitsToNat A + (c.toNat - 48) := by
  unfold digitsToNat
  rw [List.foldl_append]
  rfl

theorem natReprAux_spec (fuel : Nat) :
    ∀ n, n ≤ fuel →
      digitsToNat (natReprAux fuel n) = n ∧
      ∀ c ∈ natReprAux fuel n, ∃ d, d < 10 ∧ c = digitChar d := by
  induction fuel with
  | zero =>
    intro n hn
    interval_cases n
    exact ⟨rfl, by simp [natReprAux]⟩
  | succ fuel ih =>
    intro n hn
    by_cases h0 : n = 0
    · subst h0
      exact ⟨rfl, by simp [natReprAux]⟩
    · have h10 : n / 10 ≤ fuel := by
        have := Nat.div_lt_self (Nat.pos_of_ne_zero h0) (by norm_num : 1 < 10)
        omega
      obtain ⟨ihv, ihd⟩ := ih (n / 10) h10
      constructor
      · rw [natReprAux, if_neg h0, digitsToNat_append_digit, ihv,
          (digitChar_lt10 (n % 10) (Nat.mod_lt n (by norm_num))).2.1]
        omega
      · rw [natReprAux, if_neg h0]
        intro c hc
        rcases List.mem_append.mp hc with h | h
        · exact ihd c h
        · rw [List.mem_singleton.mp h]
          exact ⟨n % 10, Nat.mod_lt n (by norm_num), rfl⟩

theorem digitsToNat_natRepr (n : Nat) : digitsToNat (natRepr n) = n := by
  unfold natRepr
  by_cases h0 : n = 0
  · subst h0
    rw [if_pos rfl]
    decide
  · rw [if_neg h0]
    exact (natReprAux_spec (n + 1) n (Nat.le_succ n)).1

theorem natRepr_digits (n : Nat) :
    ∀ c ∈ natRepr n, ∃ d, d < 10 ∧ c = digitChar d := by
  unfold natRepr
  by_cases h0 : n = 0
  · subst h0
    rw [if_pos rfl]
    intro c hc
    rw [List.mem_singleton.mp hc]
    exact ⟨0, by norm_num, by decide⟩
  · rw [if_neg h0]
    exact (natReprAux_spec (n + 1) n (Nat.le_succ n)).2

theorem natRepr_ne_nil (n : Nat) : natRepr n ≠ [] := by
  unfold natRepr
  by_cases h0 : n = 0
  · subst h0
    simp
  · rw [if_neg h0, natReprAux, if_neg h0]
    simp

theorem pad2_spec (k : Nat) (hk : k < 100) :
    digitsToNat (pad2 k) = k ∧
    ∀ c ∈ pad2 k, ∃ d, d < 10 ∧ c = digitChar d := by
  have h1 : k / 10 < 10 := by omega
  have h2 : k % 10 < 10 := Nat.mod_lt k (by norm_num)
  constructor
  · show digitsToNat [digitChar (k / 10), digitChar (k % 10)] = k
    unfold digitsToNat
    simp only [List.foldl_cons, List.foldl_nil]
    rw [(digitChar_lt10 _ h1).2.1, (digitChar_lt10 _ h2).2.1]
    omega
  · intro c hc
    unfold pad2 at hc
    rcases List.mem_cons.mp hc with rfl | hc2
    · exact ⟨k / 10, h1, rfl⟩
    · rcases List.mem_cons.mp hc2 with rfl | hc3
      · exact ⟨k % 10, h2, rfl⟩
      · exact absurd hc3 (List.not_mem_nil c)

theorem decimal_chars_facts (A B : List Char)
    (hA : ∀ c ∈ A, ∃ d, d < 10 ∧ c = digitChar d)
    (hB : ∀ c ∈ B, ∃ d, d < 10 ∧ c = digitChar d) :
    ∀ c ∈ A ++ '.' :: B,
      c.isWhitespace = false ∧ c ≠ ',' ∧ c ≠ '/' ∧ (c.isDigit || decide (c = '.')) = true := by
  intro c hc
  have hdig : (∃ d, d < 10 ∧ c = digitChar d) ∨ c = '.' := by
    rcases List.mem_append.mp hc with h | h
    · exact Or.inl (hA c h)
    · rcases List.mem_cons.mp h with h | h
      · exact Or.inr h
      · exact Or.inl (hB c h)
  rcases hdig with ⟨d, hd, rfl⟩ | rfl
  · have h := digitChar_lt10 d hd
    exact ⟨h.2.2.1, h.2.2.2.1, h.2.2.2.2.1, by rw [h.1]; rfl⟩
  · exact ⟨by decide, by decide, by decide, by decide⟩

theorem clean_nota_chars_decimal (A B : List Char)
    (hA : ∀ c ∈ A, ∃ d, d < 10 ∧ c = digitChar d)
    (hB : ∀ c ∈ B, ∃ d, d < 10 ∧ c = digitChar d) :
    clean_nota_chars (A ++ '.' :: B) = A ++ '.' :: B := by
  have hchar := decimal_chars_facts A B hA hB
  have hslash : '/' ∉ A ++ '.' :: B := fun hm => absurd rfl (hchar '/' hm).2.2.1
  have hdotA : '.' ∉ A := by
    intro hm
    obtain ⟨d, hd, he⟩ := hA '.' hm
    exact absurd he.symm (digitChar_lt10 d hd).2.2.2.2.2
  have hdotB : '.' ∉ B := by
    intro hm
    obtain ⟨d, hd, he⟩ := hB '.' hm
    exact absurd he.symm (digitChar_lt10 d hd).2.2.2.2.2
  unfold clean_nota_chars
  dsimp only
  rw [trimChars_eq_self _ (fun c hc => (hchar c hc).1)]
  rw [replaceChar_eq_self _ _ _ (fun c hc => (hchar c hc).2.1)]
  rw [show matchesDateFrac (A ++ '.' :: B) = false from by
    unfold matchesDateFrac
    rw [splitOnChar_not_mem '/' _ hslash]]
  rw [if_neg (by simp)]
  rw [List.filter_eq_self.mpr (fun c hc => (hchar c hc).2.2.2)]
  unfold collapseDots
  rw [splitOnChar_append '.' A B hdotA hdotB]

theorem floatOfCleaned_decimal (A B : List Char)
    (hA : ∀ c ∈ A, ∃ d, d < 10 ∧ c = digitChar d)
    (hB : ∀ c ∈ B, ∃ d, d < 10 ∧ c = digitChar d)
    (hAne : A ≠ []) :
    floatOfCleaned (A ++ '.' :: B)
      = some ((digitsToNat A : ℚ) + (digitsToNat B : ℚ) / 10 ^ B.length) := by
  have hdotA : '.' ∉ A := by
    intro hm
    obtain ⟨d, hd, he⟩ := hA '.' hm
    exact absurd he.symm (digitChar_lt10 d hd).2.2.2.2.2
  have hdotB : '.' ∉ B := by
    intro hm
    obtain ⟨d, hd, he⟩ := hB '.' hm
    exact absurd he.symm (digitChar_lt10 d hd).2.2.2.2.2
  unfold floatOfCleaned
  rw [splitOnChar_append '.' A B hdotA hdotB]
  dsimp only
  rw [if_pos ?_]
  refine ⟨by simp [hAne], ?_, ?_⟩
  · exact List.all_eq_true.mpr (fun c hc => by
      obtain ⟨d, hd, rfl⟩ := hA c hc
      exact (digitChar_lt10 d hd).1)
  · exact List.all_eq_true.mpr (fun c hc => by
      obtain ⟨d, hd, rfl⟩ := hB c hc
      exact (digitChar_lt10 d hd).1)

theorem clean_roundtrip_nat (n : Nat) :
    clean_nota_value (some (String.mk (natRepr (n / 100) ++ '.' :: pad2 (n % 100))))
      = some ((n : ℚ) / 100) := by
  have hA := natRepr_digits (n / 100)
  have hB := (pad2_spec (n % 100) (Nat.mod_lt n (by norm_num))).2
  have hlist : (String.mk (natRepr (n / 100) ++ '.' :: pad2 (n % 100))).toList
      = natRepr (n / 100) ++ '.' :: pad2 (n % 100) := rfl
  unfold clean_nota_value
  dsimp only
  rw [hlist, clean_nota_chars_decimal _ _ hA hB]
  rw [if_neg (by simp)]
  rw [floatOfCleaned_decimal _ _ hA hB (natRepr_ne_nil _)]
  congr 1
  rw [digitsToNat_natRepr, (pad2_spec (n % 100) (Nat.mod_lt n (by norm_num))).1]
  rw [show (pad2 (n % 100)).length = 2 from rfl]
  have h := Nat.div_add_mod n 100
  have hq : ((n : ℚ)) = 100 * ((n / 100 : Nat) : ℚ) + ((n % 100 : Nat) : ℚ) := by
    exact_mod_cast h.symm
  rw [hq]
  ring

theorem roundHalfEven_nonneg (q : ℚ) (h : 0 ≤ q) : 0 ≤ roundHalfEven q := by
  unfold roundHalfEven
  have hf : (0 : ℤ) ≤ ⌊q⌋ := Int.floor_nonneg.mpr h
  dsimp only
  split_ifs <;> omega

theorem roundHalfEven_intCast (k : ℤ) : roundHalfEven (k : ℚ) = k := by
  unfold roundHalfEven
  rw [Int.floor_intCast]
  rw [if_pos (by norm_num)]

/-- C8: writing a score in [0,10] with 2-decimal formatting (as the append
path does) and normalizing the written string back yields a number equal to
the original score to two decimal places. -/
theorem C8_roundtrip (s : ℚ) (h0 : 0 ≤ s) (h1 : s ≤ 10) :
    ∃ r, clean_nota_value (some (format2 s)) = some r ∧
      roundHalfEven (100 * r) = roundHalfEven (100 * s) := by
  refine ⟨(((roundHalfEven (100 * s)).toNat : ℕ) : ℚ) / 100, ?_, ?_⟩
  · exact clean_roundtrip_nat (roundHalfEven (100 * s)).toNat
  · have hnn : 0 ≤ roundHalfEven (100 * s) :=
      roundHalfEven_nonneg _ (mul_nonneg (by norm_num) h0)
    have hmul : (100 : ℚ) * ((((roundHalfEven (100 * s)).toNat : ℕ) : ℚ) / 100)
        = (((roundHalfEven (100 * s)).toNat : ℕ) : ℚ) := by
      field_simp
    rw [hmul]
    have hcast : ((((roundHalfEven (100 * s)).toNat : ℕ) : ℚ))
        = ((roundHalfEven (100 * s) : ℤ) : ℚ) := by
      exact_mod_cast Int.toNat_of_nonneg hnn
    rw [hcast, roundHalfEven_intCast]

theorem C8_roundtrip_witness :
    (0 : ℚ) ≤ 15 / 2 ∧ (15 / 2 : ℚ) ≤ 10 ∧
    ∃ r, clean_nota_value (some (format2 (15 / 2))) = some r ∧
      roundHalfEven (100 * r) = roundHalfEven (100 * (15 / 2 : ℚ)) :=
  ⟨by norm_num, by norm_num, C8_roundtrip (15 / 2) (by norm_num) (by norm_num)⟩
